import Mathlib

/-!
Verification of the session-aware chatbot repository: a shallow embedding of
the file-backed transcript store with its tool handlers (chatbot-server) and
of the browser turn coordinator (public/client.js), together with theorems
settling the frozen claims about them.
-/

set_option maxRecDepth 4096

/-- Role tag of a stored chat message; the store only ever holds user,
assistant and system roles (types.ts, StoredChatMessage). -/
inductive Role where
  | user
  | assistant
  | system
deriving DecidableEq, Repr

/-- One stored message: a role tag plus text content, exactly the shape of
the objects in a session JSON file. -/
structure ChatMessage where
  role : Role
  content : String
deriving DecidableEq, Repr

/-- A session transcript: the ordered JSON array stored in one session file. -/
abbrev Transcript := List ChatMessage

/-- The sessions directory, modelled as an association list from session id
(the file name without the .json suffix) to the parsed array the file holds.
Presence of a key models existence of the transcript file. -/
abbrev SessionsDir := List (String × Transcript)

/-- Reading the file for a session id: the first binding for that id, or none
when no such file exists (ENOENT in readTranscript). -/
def dirRead (fs : SessionsDir) (sid : String) : Option Transcript :=
  match fs with
  | [] => none
  | (k, t) :: rest => if k = sid then some t else dirRead rest sid

/-- Writing the file for a session id: replace the binding when the file
exists, otherwise create it (fs.writeFile semantics). -/
def dirWrite (fs : SessionsDir) (sid : String) (t : Transcript) : SessionsDir :=
  match fs with
  | [] => [(sid, t)]
  | (k, u) :: rest => if k = sid then (k, t) :: rest else (k, u) :: dirWrite rest sid t

/-- Characters allowed by the file-path guard in getSessionFilePath: the
regex accepts only lowercase hex digits and dashes. -/
def isPathChar (c : Char) : Bool :=
  (('0' ≤ c && c ≤ '9') || ('a' ≤ c && c ≤ 'f')) || c = '-'

/-- The getSessionFilePath guard: the session id must be nonempty and match
the regex accepting one or more of [a-f0-9-]; otherwise the helper throws
an Invalid session ID format error. -/
def validSessionPath (s : String) : Bool :=
  decide (0 < s.length) && s.data.all isPathChar

/-- Hexadecimal digit in either case, as accepted by the uuid string schema. -/
def isHexChar (c : Char) : Bool :=
  ('0' ≤ c && c ≤ '9') || ('a' ≤ c && c ≤ 'f') || ('A' ≤ c && c ≤ 'F')

/-- Splitting a character list at every dash, keeping empty groups, so that
a uuid candidate decomposes into its dash-separated groups. -/
def splitDash : List Char → List (List Char)
  | [] => [[]]
  | c :: rest =>
    let r := splitDash rest
    if c = '-' then [] :: r
    else
      match r with
      | [] => [[c]]
      | g :: gs => (c :: g) :: gs

/-- Modelled from the spec: the Tool-Call Bridge validates identifier format
with the z.string().uuid() schema of the zod dependency (not part of src),
whose documented uuid shape is five dash-separated groups of 8, 4, 4, 4 and
12 hexadecimal digits, accepted case-insensitively. -/
def isZodUuid (s : String) : Bool :=
  match splitDash s.data with
  | [a, b, c, d, e] =>
    decide (a.length = 8) && decide (b.length = 4) && decide (c.length = 4) &&
    decide (d.length = 4) && decide (e.length = 12) &&
    a.all isHexChar && b.all isHexChar && c.all isHexChar &&
    d.all isHexChar && e.all isHexChar
  | _ => false

/-- Result of a tool handler as returned across the bridge: the isError flag
together with the text payload of the single TextContent item. -/
structure ToolResult where
  isError : Bool
  text : String
deriving DecidableEq, Repr

/-- The NotFound error text produced by add_message, add_system_note and
get_transcript for a session id whose file does not exist. -/
def notFoundText (sid : String) : String :=
  "Error: Session with ID " ++ sid ++ " not found."

/-- Reading a transcript as readTranscript does: getSessionFilePath throws on
a path-invalid id (modelled as Except.error); otherwise the file is read,
giving none when it does not exist. Parsed content is the stored array. -/
def readTranscript (fs : SessionsDir) (sid : String) : Except String (Option Transcript) :=
  if validSessionPath sid then Except.ok (dirRead fs sid)
  else Except.error "Invalid session ID format."

/-- Writing a transcript as writeTranscript does: getSessionFilePath throws
on a path-invalid id, otherwise the serialized array replaces the file. -/
def writeTranscript (fs : SessionsDir) (sid : String) (t : Transcript) :
    Except String SessionsDir :=
  if validSessionPath sid then Except.ok (dirWrite fs sid t)
  else Except.error "Invalid session ID format."

/-- Handler of the start_session tool: writes an empty transcript for the
freshly generated id (uuidv4, passed here as a parameter) and returns the id;
a throw inside the try block becomes the initialization error result. -/
def startSessionHandler (fs : SessionsDir) (freshId : String) : SessionsDir × ToolResult :=
  match writeTranscript fs freshId [] with
  | Except.ok fs' => (fs', ⟨false, freshId⟩)
  | Except.error _ => (fs, ⟨true, "Error: Failed to initialize session storage."⟩)

/-- Handler of the add_message tool: read the transcript (a throw from
getSessionFilePath is caught and reported as the storage error), answer
NotFound when the file is missing, otherwise push the new message and write
the file back. -/
def addMessageHandler (fs : SessionsDir) (sid : String) (role : Role) (content : String) :
    SessionsDir × ToolResult :=
  match readTranscript fs sid with
  | Except.error _ => (fs, ⟨true, "Error: Failed to add message to session storage."⟩)
  | Except.ok none => (fs, ⟨true, notFoundText sid⟩)
  | Except.ok (some t) =>
    match writeTranscript fs sid (t ++ [⟨role, content⟩]) with
    | Except.ok fs' => (fs', ⟨false, "Message added successfully."⟩)
    | Except.error _ => (fs, ⟨true, "Error: Failed to add message to session storage."⟩)

/-- Handler of the add_system_note tool: identical to add_message except that
the role is fixed to system and the error texts differ. -/
def addSystemNoteHandler (fs : SessionsDir) (sid : String) (note : String) :
    SessionsDir × ToolResult :=
  match readTranscript fs sid with
  | Except.error _ => (fs, ⟨true, "Error: Failed to add system note."⟩)
  | Except.ok none => (fs, ⟨true, notFoundText sid⟩)
  | Except.ok (some t) =>
    match writeTranscript fs sid (t ++ [⟨Role.system, note⟩]) with
    | Except.ok fs' => (fs', ⟨false, "System note added successfully."⟩)
    | Except.error _ => (fs, ⟨true, "Error: Failed to add system note."⟩)

/-- Outcome of the get_transcript handler. Unlike the other handlers, its
call to getSessionFilePath sits outside the try block, so a path-invalid id
makes the handler throw instead of returning a typed result; on success the
payload is the raw file content, here the stored array. -/
inductive GetTranscriptOutcome where
  | transcript (t : Transcript)
  | errorResult (text : String)
  | thrown (msg : String)
deriving DecidableEq, Repr

/-- Handler of the get_transcript tool, with the throw of getSessionFilePath
escaping (it happens before the try block); a missing file (ENOENT) yields
the NotFound typed error result. -/
def getTranscriptHandler (fs : SessionsDir) (sid : String) : GetTranscriptOutcome :=
  if validSessionPath sid then
    match dirRead fs sid with
    | none => GetTranscriptOutcome.errorResult (notFoundText sid)
    | some t => GetTranscriptOutcome.transcript t
  else GetTranscriptOutcome.thrown "Invalid session ID format."

/-- Handler of the list_sessions tool: the ids of the .json files in the
sessions directory, with the suffix stripped, in directory order. -/
def listSessionsHandler (fs : SessionsDir) : List String :=
  fs.map Prod.fst

/-- A call to one of the six tools exposed by the bridge, with its arguments.
The fresh uuid drawn by start_session is made explicit as an argument. -/
inductive ToolCall where
  | startSession (freshId : String)
  | addMessage (sessionId : String) (role : Role) (content : String)
  | addSystemNote (sessionId : String) (note : String)
  | getTranscript (sessionId : String)
  | listSessions
  | endSession (sessionId : String)
deriving DecidableEq, Repr

/-- Modelled from the spec: the input schema the bridge validates before the
handler runs. start_session and list_sessions take no input; the others
require a uuid-shaped session id; add_message additionally requires a
nonempty content with role restricted to user or assistant by the enum
schema, and add_system_note a nonempty note. -/
def schemaAccepts : ToolCall → Bool
  | ToolCall.startSession _ => true
  | ToolCall.addMessage sid role content =>
    isZodUuid sid && decide (0 < content.length) && !(role == Role.system)
  | ToolCall.addSystemNote sid note => isZodUuid sid && decide (0 < note.length)
  | ToolCall.getTranscript sid => isZodUuid sid
  | ToolCall.listSessions => true
  | ToolCall.endSession sid => isZodUuid sid

/-- Observable outcome of one bridge call: rejected by schema validation
before any store operation, answered with a typed result carrying the
isError flag, or aborted by an exception thrown out of the handler. -/
inductive BridgeOutcome where
  | schemaRejected
  | reply (isError : Bool)
  | exceptionThrown
deriving DecidableEq, Repr

/-- One bridge call on the store: schema validation first, then the matching
handler; the resulting directory state is paired with the observable
outcome. end_session only logs and always succeeds without touching files. -/
def callTool (fs : SessionsDir) (c : ToolCall) : SessionsDir × BridgeOutcome :=
  if schemaAccepts c then
    match c with
    | ToolCall.startSession freshId =>
      let r := startSessionHandler fs freshId
      (r.1, BridgeOutcome.reply r.2.isError)
    | ToolCall.addMessage sid role content =>
      let r := addMessageHandler fs sid role content
      (r.1, BridgeOutcome.reply r.2.isError)
    | ToolCall.addSystemNote sid note =>
      let r := addSystemNoteHandler fs sid note
      (r.1, BridgeOutcome.reply r.2.isError)
    | ToolCall.getTranscript sid =>
      match getTranscriptHandler fs sid with
      | GetTranscriptOutcome.transcript _ => (fs, BridgeOutcome.reply false)
      | GetTranscriptOutcome.errorResult _ => (fs, BridgeOutcome.reply true)
      | GetTranscriptOutcome.thrown _ => (fs, BridgeOutcome.exceptionThrown)
    | ToolCall.listSessions => (fs, BridgeOutcome.reply false)
    | ToolCall.endSession _ => (fs, BridgeOutcome.reply false)
  else (fs, BridgeOutcome.schemaRejected)

/-- Folding a sequence of bridge calls over the store state. -/
def applyCalls (fs : SessionsDir) : List ToolCall → SessionsDir
  | [] => fs
  | c :: cs => applyCalls (callTool fs c).1 cs

/-- An append operation in the sense of claim C1: add_message with role user
or assistant, or add_system_note. -/
inductive AppendOp where
  | userMessage (content : String)
  | assistantMessage (content : String)
  | systemNote (note : String)
deriving DecidableEq, Repr

/-- The stored message an append operation produces. -/
def AppendOp.toMsg : AppendOp → ChatMessage
  | AppendOp.userMessage c => ⟨Role.user, c⟩
  | AppendOp.assistantMessage c => ⟨Role.assistant, c⟩
  | AppendOp.systemNote n => ⟨Role.system, n⟩

/-- State effect of one append operation through the matching handler. -/
def applyAppend (fs : SessionsDir) (sid : String) : AppendOp → SessionsDir
  | AppendOp.userMessage c => (addMessageHandler fs sid Role.user c).1
  | AppendOp.assistantMessage c => (addMessageHandler fs sid Role.assistant c).1
  | AppendOp.systemNote n => (addSystemNoteHandler fs sid n).1

/-- State effect of a sequence of append operations, first to last. -/
def applyAppends (fs : SessionsDir) (sid : String) : List AppendOp → SessionsDir
  | [] => fs
  | op :: ops => applyAppends (applyAppend fs sid op) sid ops

/-- Whitespace in the sense of the trim call of the browser client; the
model covers the ASCII whitespace characters (space, tab, line feed,
vertical tab, form feed, carriage return). -/
def isJsWhitespace (c : Char) : Bool :=
  c = ' ' || c = '\t' || c = '\n' || c = '\x0b' || c = '\x0c' || c = '\r'

/-- Dropping the leading whitespace of a character list. -/
def dropLeadingWs : List Char → List Char
  | [] => []
  | c :: rest => if isJsWhitespace c then dropLeadingWs rest else c :: rest

/-- The trim applied to transcripts before de-duplication: whitespace is
removed from both ends of the string. -/
def jsTrim (s : String) : String :=
  String.mk ((dropLeadingWs ((dropLeadingWs s.data).reverse)).reverse)

/-- The turn-coordinator state of the browser client: the module-level
mutable variables of public/client.js that the claims concern, with the
connection objects abstracted to their observable liveness and the two
buttons to their disabled flags. audioSrcSet models a nonempty
audioPlayer.src. -/
structure ClientState where
  isRecording : Bool
  expectingAssistantResponse : Bool
  lastUserTranscriptSent : String
  transcriptBuffer : String
  transcriptTimeoutPending : Bool
  realtimeApiHandledResponse : Bool
  accumulatedAssistantText : String
  assistantAudioBuffer : List (List Nat)
  currentAssistantMessageId : Option String
  audioSrcSet : Bool
  currentSessionId : Option String
  wsConnected : Bool
  pcConnected : Bool
  dcOpen : Bool
  recordDisabled : Bool
  stopDisabled : Bool
  connectDisabled : Bool
deriving DecidableEq, Repr

/-- sendMessageToBackend: the message goes out only when the backend socket
is open and a session id is set; otherwise nothing is sent, the turn flag is
dropped and the buttons are reset (the record button gets the literal
double-negated session check of the source). The second component lists the
contents actually sent. -/
def sendMessageToBackend (s : ClientState) (content : String) : ClientState × List String :=
  if s.wsConnected && s.currentSessionId.isSome then (s, [content])
  else
    ({ s with expectingAssistantResponse := false,
              recordDisabled := s.currentSessionId.isSome,
              stopDisabled := true }, [])

/-- handleTranscriptionCompleted: clear the pending timeout, trim the
transcript (a nullish argument trims to the empty string), then either send
a fresh nonempty text as a user_transcript message and commit the turn, or
discard an empty or duplicate text; the transcript buffer is cleared on
every path. The sent-message list is returned alongside the new state. -/
def handleTranscriptionCompleted (s : ClientState) (transcript : String) :
    ClientState × List String :=
  let s0 := { s with transcriptTimeoutPending := false }
  let t := jsTrim transcript
  if t ≠ "" ∧ t ≠ s0.lastUserTranscriptSent then
    let r := sendMessageToBackend s0 t
    ({ r.1 with lastUserTranscriptSent := t,
                expectingAssistantResponse := true,
                recordDisabled := true,
                stopDisabled := true,
                transcriptBuffer := "" }, r.2)
  else
    let s1 := if s0.expectingAssistantResponse then s0
              else { s0 with recordDisabled := s0.currentSessionId.isNone }
    ({ s1 with stopDisabled := true, transcriptBuffer := "" }, [])

/-- Dispatch of a conversation.item.input_audio_transcription.completed
event in handleRealtimeEvent: the pending timeout is cleared and the carried
transcript is handed to handleTranscriptionCompleted. -/
def onTranscriptionCompletedEvent (s : ClientState) (transcript : String) :
    ClientState × List String :=
  handleTranscriptionCompleted { s with transcriptTimeoutPending := false } transcript

/-- recordButton.onclick: the guard refuses to start capture while already
recording, without a connected peer connection and open data channel,
without a session id, or while awaiting an assistant response; otherwise the
turn state is reset and recording starts. micOk tells whether microphone
acquisition succeeded; on failure the catch block resets the flags (with the
literal double-negated session check of the source). -/
def recordClick (s : ClientState) (micOk : Bool) : ClientState :=
  if s.isRecording || !s.pcConnected || !s.dcOpen ||
      s.currentSessionId.isNone || s.expectingAssistantResponse then s
  else
    let s1 := { s with realtimeApiHandledResponse := false,
                       recordDisabled := true,
                       stopDisabled := false,
                       isRecording := true,
                       transcriptBuffer := "",
                       lastUserTranscriptSent := "",
                       transcriptTimeoutPending := false,
                       audioSrcSet := false,
                       assistantAudioBuffer := [] }
    if micOk then s1
    else { s1 with recordDisabled := s1.currentSessionId.isSome,
                   stopDisabled := true,
                   isRecording := false }

/-- audioPlayer.onended: the record button is re-enabled (when a session is
active) only if expectingAssistantResponse is already false, and the audio
source is cleared; the flag itself is not modified. -/
def audioPlayerOnEnded (s : ClientState) : ClientState :=
  let s1 := if s.expectingAssistantResponse then s
            else { s with recordDisabled := s.currentSessionId.isNone }
  { s1 with audioSrcSet := false }

/-- audioPlayer.onerror: same state effect as playback completion. -/
def audioPlayerOnError (s : ClientState) : ClientState :=
  let s1 := if s.expectingAssistantResponse then s
            else { s with recordDisabled := s.currentSessionId.isNone }
  { s1 with audioSrcSet := false }

/-- cleanupConnections: closes the WebRTC session (stopping any recording,
data channel and peer connection, clearing the audio element), closes the
backend socket, drops the session id and token, and resets the buttons for
a fresh connect. -/
def cleanupConnections (s : ClientState) : ClientState :=
  { s with isRecording := false,
           dcOpen := false,
           pcConnected := false,
           audioSrcSet := false,
           wsConnected := false,
           currentSessionId := none,
           recordDisabled := true,
           stopDisabled := true,
           connectDisabled := false }

/-- Error codes of the realtime transport that the error case of
handleRealtimeEvent treats as fatal to the whole session. -/
def isFatalErrorCode (code : String) : Bool :=
  code = "session_not_found" || code = "auth_error" ||
  code = "connection_error" || code = "rate_limit_exceeded"

/-- Dispatch of an error event in handleRealtimeEvent: the turn state is
always reset (flag dropped, record enabled exactly when a session is active,
assistant accumulation and audio cleared, pending transcript timeout and its
buffer cleared when one was armed); then, exactly for the fatal codes, all
connections are torn down and the connect button re-enabled. The boolean
reports whether cleanupConnections ran. -/
def handleRealtimeErrorEvent (s : ClientState) (code : String) : ClientState × Bool :=
  let s1 := { s with expectingAssistantResponse := false,
                     recordDisabled := s.currentSessionId.isNone,
                     stopDisabled := true,
                     accumulatedAssistantText := "",
                     assistantAudioBuffer := [],
                     audioSrcSet := false,
                     currentAssistantMessageId := none }
  let s2 := if s1.transcriptTimeoutPending then
              { s1 with transcriptTimeoutPending := false, transcriptBuffer := "" }
            else s1
  if isFatalErrorCode code then
    ({ cleanupConnections s2 with connectDisabled := false }, true)
  else (s2, false)

lemma dirRead_dirWrite_self (fs : SessionsDir) (sid : String) (t : Transcript) :
    dirRead (dirWrite fs sid t) sid = some t := by
  induction fs with
  | nil => simp [dirRead, dirWrite]
  | cons p rest ih =>
    obtain ⟨k, u⟩ := p
    by_cases h : k = sid
    · simp [dirRead, dirWrite, h]
    · simp [dirRead, dirWrite, h, ih]

lemma mem_keys_dirWrite (fs : SessionsDir) (sid k : String) (t : Transcript) :
    k ∈ (dirWrite fs sid t).map Prod.fst ↔ k = sid ∨ k ∈ fs.map Prod.fst := by
  induction fs with
  | nil => simp [dirWrite]
  | cons p rest ih =>
    obtain ⟨k', u⟩ := p
    by_cases h : k' = sid
    · subst h; simp [dirWrite]
    · simp [dirWrite, h, ih]; tauto

lemma mem_keys_of_dirRead {fs : SessionsDir} {sid : String} {t : Transcript}
    (h : dirRead fs sid = some t) : sid ∈ fs.map Prod.fst := by
  induction fs with
  | nil => simp [dirRead] at h
  | cons p rest ih =>
    obtain ⟨k, u⟩ := p
    by_cases hk : k = sid
    · simp [hk]
    · simp [dirRead, hk] at h
      simp [ih h]

lemma dirRead_applyAppend (fs : SessionsDir) (sid : String) (op : AppendOp)
    (t : Transcript) (hv : validSessionPath sid = true) (hr : dirRead fs sid = some t) :
    dirRead (applyAppend fs sid op) sid = some (t ++ [op.toMsg]) := by
  cases op <;>
    simp [applyAppend, addMessageHandler, addSystemNoteHandler, readTranscript,
      writeTranscript, hv, hr, AppendOp.toMsg, dirRead_dirWrite_self]

/-- C1. For a session id whose transcript file exists with content t0, any
sequence of append operations (add_message with role user or assistant, or
add_system_note) extends the file in order, and a subsequent get_transcript
returns the stored array t0 followed by exactly the appended messages in
append order, each a role and content pair. For a file freshly created by
start_session, t0 is the empty array, so the read is exactly the appended
messages. The path-validity hypothesis reflects getSessionFilePath; every id
issued by start_session (a lowercase uuid) satisfies it. -/
theorem c1_append_then_read_roundtrip (fs : SessionsDir) (sid : String)
    (t0 : Transcript) (ops : List AppendOp)
    (hv : validSessionPath sid = true) (hr : dirRead fs sid = some t0) :
    getTranscriptHandler (applyAppends fs sid ops) sid =
      GetTranscriptOutcome.transcript (t0 ++ ops.map AppendOp.toMsg) := by
  induction ops generalizing fs t0 with
  | nil => simp [applyAppends, getTranscriptHandler, hv, hr]
  | cons op ops ih =>
    have h1 := dirRead_applyAppend fs sid op t0 hv hr
    have h2 := ih _ _ h1
    simpa [applyAppends, List.append_assoc] using h2

/-- Witness for C1 at the end-to-end scenario of the spec: start from an
existing empty session file, append a user and an assistant message, and
read back exactly those two messages in order. -/
theorem c1_append_then_read_roundtrip_witness :
    validSessionPath "ab" = true ∧ dirRead [("ab", [])] "ab" = some [] ∧
    getTranscriptHandler
      (applyAppends [("ab", [])] "ab"
        [AppendOp.userMessage "hi", AppendOp.assistantMessage "hello"]) "ab" =
      GetTranscriptOutcome.transcript
        [⟨Role.user, "hi"⟩, ⟨Role.assistant, "hello"⟩] :=
  ⟨by decide, by decide,
    c1_append_then_read_roundtrip [("ab", [])] "ab" []
      [AppendOp.userMessage "hi", AppendOp.assistantMessage "hello"]
      (by decide) (by decide)⟩

/-- Counterexample to C2 as stated. The session id below is uuid-shaped
(accepted case-insensitively by the input schema, so it reaches the
handler), and no transcript file exists for it; yet add_message does not
return the NotFound typed error result: because the id contains uppercase
hex, getSessionFilePath throws inside the try block and the handler answers
with the generic storage-failure error text instead. -/
theorem c2_counterexample :
    isZodUuid "ABCDEF01-2345-4678-8901-23456789ABCD" = true ∧
    dirRead [] "ABCDEF01-2345-4678-8901-23456789ABCD" = none ∧
    (addMessageHandler [] "ABCDEF01-2345-4678-8901-23456789ABCD" Role.user "hi").2 ≠
      ⟨true, notFoundText "ABCDEF01-2345-4678-8901-23456789ABCD"⟩ ∧
    (addMessageHandler [] "ABCDEF01-2345-4678-8901-23456789ABCD" Role.user "hi").2 =
      ⟨true, "Error: Failed to add message to session storage."⟩ := by
  refine ⟨by decide, by decide, ?_, by decide⟩
  decide

/-- C2 amended. For every session id matching the path guard (in particular
every id issued by start_session) for which no transcript file exists,
add_message returns the NotFound typed error result and leaves the store
unchanged, creating no file; for an id failing the path guard (uuid-shaped
but with uppercase hex), add_message instead returns the generic
storage-failure typed error result, likewise leaving the store unchanged. -/
theorem c2_add_message_not_found (fs : SessionsDir) (sid : String)
    (role : Role) (content : String) (hr : dirRead fs sid = none) :
    (validSessionPath sid = true →
      addMessageHandler fs sid role content = (fs, ⟨true, notFoundText sid⟩)) ∧
    (validSessionPath sid = false →
      addMessageHandler fs sid role content =
        (fs, ⟨true, "Error: Failed to add message to session storage."⟩)) := by
  constructor
  · intro hv
    simp [addMessageHandler, readTranscript, hv, hr]
  · intro hv
    simp [addMessageHandler, readTranscript, hv]

/-- Witness for C2 amended: a lowercase, path-valid session id with no file
gets the NotFound error and an unchanged store. -/
theorem c2_add_message_not_found_witness :
    dirRead [("aa", [])] "bb" = none ∧ validSessionPath "bb" = true ∧
    addMessageHandler [("aa", [])] "bb" Role.user "hi" =
      ([("aa", [])], ⟨true, notFoundText "bb"⟩) :=
  ⟨by decide, by decide,
    (c2_add_message_not_found [("aa", [])] "bb" Role.user "hi" (by decide)).1 (by decide)⟩


lemma mem_keys_dirWrite_of_read {fs : SessionsDir} {sid' : String} {t u : Transcript}
    (hr : dirRead fs sid' = some t) (sid : String) :
    sid ∈ (dirWrite fs sid' u).map Prod.fst ↔ sid ∈ fs.map Prod.fst := by
  rw [mem_keys_dirWrite]
  constructor
  · rintro (h | h)
    · subst h; exact mem_keys_of_dirRead hr
    · exact h
  · exact Or.inr

lemma mem_keys_callTool (fs : SessionsDir) (c : ToolCall) (sid : String) :
    sid ∈ ((callTool fs c).1).map Prod.fst ↔
      (c = ToolCall.startSession sid ∧ validSessionPath sid = true) ∨
        sid ∈ fs.map Prod.fst := by
  cases c with
  | startSession freshId =>
    by_cases hv : validSessionPath freshId
    · have hstate : (callTool fs (ToolCall.startSession freshId)).1 = dirWrite fs freshId [] := by
        simp [callTool, schemaAccepts, startSessionHandler, writeTranscript, hv]
      rw [hstate, mem_keys_dirWrite]
      constructor
      · rintro (h | h)
        · subst h; exact Or.inl ⟨rfl, hv⟩
        · exact Or.inr h
      · rintro (⟨h, _⟩ | h)
        · cases h; exact Or.inl rfl
        · exact Or.inr h
    · have hstate : (callTool fs (ToolCall.startSession freshId)).1 = fs := by
        simp [callTool, schemaAccepts, startSessionHandler, writeTranscript, hv]
      rw [hstate]
      constructor
      · exact Or.inr
      · rintro (⟨h, hvs⟩ | h)
        · cases h; exact absurd hvs hv
        · exact h
  | addMessage sid' role content =>
    have hstate : (callTool fs (ToolCall.addMessage sid' role content)).1 = fs ∨
        ∃ t, dirRead fs sid' = some t ∧
          (callTool fs (ToolCall.addMessage sid' role content)).1 =
            dirWrite fs sid' (t ++ [⟨role, content⟩]) := by
      by_cases hs : schemaAccepts (ToolCall.addMessage sid' role content)
      · by_cases hv : validSessionPath sid'
        · cases hr : dirRead fs sid' with
          | none =>
            exact Or.inl (by simp [callTool, hs, addMessageHandler, readTranscript, hv, hr])
          | some t =>
            refine Or.inr ⟨t, rfl, ?_⟩
            simp [callTool, hs, addMessageHandler, readTranscript, writeTranscript, hv, hr]
        · exact Or.inl (by simp [callTool, hs, addMessageHandler, readTranscript, hv])
      · exact Or.inl (by simp [callTool, hs])
    rcases hstate with h | ⟨t, hr, h⟩
    · rw [h]
      constructor
      · exact Or.inr
      · rintro (⟨h1, _⟩ | h1)
        · cases h1
        · exact h1
    · rw [h, mem_keys_dirWrite_of_read hr]
      constructor
      · exact Or.inr
      · rintro (⟨h1, _⟩ | h1)
        · cases h1
        · exact h1
  | addSystemNote sid' note =>
    have hstate : (callTool fs (ToolCall.addSystemNote sid' note)).1 = fs ∨
        ∃ t, dirRead fs sid' = some t ∧
          (callTool fs (ToolCall.addSystemNote sid' note)).1 =
            dirWrite fs sid' (t ++ [⟨Role.system, note⟩]) := by
      by_cases hs : schemaAccepts (ToolCall.addSystemNote sid' note)
      · by_cases hv : validSessionPath sid'
        · cases hr : dirRead fs sid' with
          | none =>
            exact Or.inl (by simp [callTool, hs, addSystemNoteHandler, readTranscript, hv, hr])
          | some t =>
            refine Or.inr ⟨t, rfl, ?_⟩
            simp [callTool, hs, addSystemNoteHandler, readTranscript, writeTranscript, hv, hr]
        · exact Or.inl (by simp [callTool, hs, addSystemNoteHandler, readTranscript, hv])
      · exact Or.inl (by simp [callTool, hs])
    rcases hstate with h | ⟨t, hr, h⟩
    · rw [h]
      constructor
      · exact Or.inr
      · rintro (⟨h1, _⟩ | h1)
        · cases h1
        · exact h1
    · rw [h, mem_keys_dirWrite_of_read hr]
      constructor
      · exact Or.inr
      · rintro (⟨h1, _⟩ | h1)
        · cases h1
        · exact h1
  | getTranscript sid' =>
    have hstate : (callTool fs (ToolCall.getTranscript sid')).1 = fs := by
      by_cases hs : schemaAccepts (ToolCall.getTranscript sid')
      · cases hg : getTranscriptHandler fs sid' <;> simp [callTool, hs, hg]
      · simp [callTool, hs]
    rw [hstate]
    constructor
    · exact Or.inr
    · rintro (⟨h1, _⟩ | h1)
      · cases h1
      · exact h1
  | listSessions =>
    have hstate : (callTool fs ToolCall.listSessions).1 = fs := by
      simp [callTool, schemaAccepts]
    rw [hstate]
    constructor
    · exact Or.inr
    · rintro (⟨h1, _⟩ | h1)
      · cases h1
      · exact h1
  | endSession sid' =>
    have hstate : (callTool fs (ToolCall.endSession sid')).1 = fs := by
      by_cases hs : schemaAccepts (ToolCall.endSession sid')
      · simp [callTool, hs]
      · simp [callTool, hs]
    rw [hstate]
    constructor
    · exact Or.inr
    · rintro (⟨h1, _⟩ | h1)
      · cases h1
      · exact h1

lemma mem_keys_applyCalls (calls : List ToolCall) (fs : SessionsDir) (sid : String) :
    sid ∈ ((applyCalls fs calls).map Prod.fst) ↔
      (ToolCall.startSession sid ∈ calls ∧ validSessionPath sid = true) ∨
        sid ∈ fs.map Prod.fst := by
  induction calls generalizing fs with
  | nil => simp [applyCalls]
  | cons c cs ih =>
    rw [applyCalls, ih, mem_keys_callTool]
    constructor
    · rintro (⟨h1, h2⟩ | ⟨⟨h1, h2⟩ | h⟩)
      · exact Or.inl ⟨List.mem_cons_of_mem _ h1, h2⟩
      · exact Or.inl ⟨by simp [h1], h2⟩
      · exact Or.inr h
    · rintro (⟨h1, h2⟩ | h)
      · rcases List.mem_cons.mp h1 with h1 | h1
        · exact Or.inr (Or.inl ⟨h1.symm, h2⟩)
        · exact Or.inl ⟨h1, h2⟩
      · exact Or.inr (Or.inr h)

/-- C6. Starting from an empty sessions directory, after any sequence of
bridge calls, list_sessions returns exactly the set of session ids for which
a successful start_session occurred in the sequence: the handler succeeds
exactly when the fresh id passes the file-path guard, which every id
actually issued (a lowercase uuid from uuidv4) does; no other tool creates a
session file and none deletes one. -/
theorem c6_list_sessions_exactly_started (calls : List ToolCall) (sid : String) :
    sid ∈ listSessionsHandler (applyCalls [] calls) ↔
      (ToolCall.startSession sid ∈ calls ∧ validSessionPath sid = true) := by
  have h := mem_keys_applyCalls calls [] sid
  simp only [List.map_nil, List.not_mem_nil, or_false] at h
  exact h

/-- Counterexample to C5 as stated. A get_transcript call whose session id
passes the uuid schema (case-insensitive) but contains uppercase hex fails
the lowercase file-path regex; since get_transcript computes the file path
before its try block, the handler lets the exception escape instead of
returning a typed error result. -/
theorem c5_counterexample :
    callTool [] (ToolCall.getTranscript "ABCDEF01-2345-4678-8901-23456789ABCD") =
      ([], BridgeOutcome.exceptionThrown) := by
  decide

/-- C5 amended. Malformed input is rejected by schema validation before any
store operation runs (the state is unchanged and no handler executes), and a
store-level NotFound is returned as a typed error result by get_transcript,
add_message and add_system_note; every operation except get_transcript
returns a typed result, but get_transcript lets an exception escape exactly
when the session id passes the uuid schema while failing the lowercase
file-path regex (uppercase hex). -/
theorem c5_bridge_error_policy (fs : SessionsDir) (c : ToolCall) :
    ((callTool fs c).2 = BridgeOutcome.exceptionThrown ↔
      ∃ sid, c = ToolCall.getTranscript sid ∧ isZodUuid sid = true ∧
        validSessionPath sid = false) ∧
    (schemaAccepts c = false → callTool fs c = (fs, BridgeOutcome.schemaRejected)) ∧
    (∀ sid, validSessionPath sid = true → dirRead fs sid = none →
      getTranscriptHandler fs sid = GetTranscriptOutcome.errorResult (notFoundText sid) ∧
      (∀ role content, addMessageHandler fs sid role content =
        (fs, ⟨true, notFoundText sid⟩)) ∧
      (∀ note, addSystemNoteHandler fs sid note = (fs, ⟨true, notFoundText sid⟩))) := by
  refine ⟨⟨?_, ?_⟩, ?_, ?_⟩
  · intro h
    cases c with
    | startSession freshId =>
      by_cases hv : validSessionPath freshId <;>
        simp [callTool, schemaAccepts, startSessionHandler, writeTranscript, hv] at h
    | addMessage sid' role content =>
      by_cases hs : schemaAccepts (ToolCall.addMessage sid' role content)
      · by_cases hv : validSessionPath sid'
        · cases hr : dirRead fs sid' <;>
            simp [callTool, hs, addMessageHandler, readTranscript,
              writeTranscript, hv, hr] at h
        · simp [callTool, hs, addMessageHandler, readTranscript, hv] at h
      · simp [callTool, hs] at h
    | addSystemNote sid' note =>
      by_cases hs : schemaAccepts (ToolCall.addSystemNote sid' note)
      · by_cases hv : validSessionPath sid'
        · cases hr : dirRead fs sid' <;>
            simp [callTool, hs, addSystemNoteHandler, readTranscript,
              writeTranscript, hv, hr] at h
        · simp [callTool, hs, addSystemNoteHandler, readTranscript, hv] at h
      · simp [callTool, hs] at h
    | getTranscript sid' =>
      by_cases hz : isZodUuid sid'
      · by_cases hv : validSessionPath sid'
        · cases hr : dirRead fs sid' <;>
            simp [callTool, schemaAccepts, hz, getTranscriptHandler, hv, hr] at h
        · exact ⟨sid', rfl, hz, by simpa using hv⟩
      · simp [callTool, schemaAccepts, hz] at h
    | listSessions => simp [callTool, schemaAccepts] at h
    | endSession sid' =>
      by_cases hs : schemaAccepts (ToolCall.endSession sid') <;>
        simp [callTool, hs] at h
  · rintro ⟨sid', rfl, hz, hv⟩
    simp [callTool, schemaAccepts, hz, getTranscriptHandler, hv]
  · intro hs
    simp [callTool, hs]
  · intro sid hv hr
    refine ⟨?_, ?_, ?_⟩
    · simp [getTranscriptHandler, hv, hr]
    · intro role content
      simp [addMessageHandler, readTranscript, hv, hr]
    · intro note
      simp [addSystemNoteHandler, readTranscript, hv, hr]

/-- Witness for C5 amended: a schema-rejected call leaves the store
untouched, and a path-valid id with no file gets the typed NotFound result
from get_transcript. -/
theorem c5_bridge_error_policy_witness :
    schemaAccepts (ToolCall.getTranscript "nope") = false ∧
    callTool [("aa", [])] (ToolCall.getTranscript "nope") =
      ([("aa", [])], BridgeOutcome.schemaRejected) ∧
    getTranscriptHandler [("aa", [])] "bb" =
      GetTranscriptOutcome.errorResult (notFoundText "bb") :=
  ⟨by decide,
    (c5_bridge_error_policy [("aa", [])] (ToolCall.getTranscript "nope")).2.1 (by decide),
    ((c5_bridge_error_policy [("aa", [])] (ToolCall.getTranscript "nope")).2.2 "bb"
      (by decide) (by decide)).1⟩

/-- A connected, idle client state with an active session: the state right
after the connect flow delivered a session id and no turn is in progress.
Used as the base point of concrete counterexamples and witnesses. -/
def connectedIdle (sid : String) : ClientState :=
  { isRecording := false
    expectingAssistantResponse := false
    lastUserTranscriptSent := ""
    transcriptBuffer := ""
    transcriptTimeoutPending := false
    realtimeApiHandledResponse := false
    accumulatedAssistantText := ""
    assistantAudioBuffer := []
    currentAssistantMessageId := none
    audioSrcSet := false
    currentSessionId := some sid
    wsConnected := true
    pcConnected := true
    dcOpen := true
    recordDisabled := false
    stopDisabled := true
    connectDisabled := true }

/-- Counterexample to C3 as stated. While the coordinator is awaiting an
assistant response (a user transcript was already committed this turn), a
transcript-completion signal whose trimmed text differs from the last-sent
transcript is not discarded: handleTranscriptionCompleted sends it to the
backend for storage and overwrites the de-duplication register, so a second
user utterance is committed in the same turn. -/
theorem c3_counterexample :
    ({ connectedIdle "abc" with
        expectingAssistantResponse := true,
        lastUserTranscriptSent := "hi",
        recordDisabled := true } : ClientState).expectingAssistantResponse = true ∧
    (onTranscriptionCompletedEvent
      { connectedIdle "abc" with
          expectingAssistantResponse := true,
          lastUserTranscriptSent := "hi",
          recordDisabled := true } "bye").2 = ["bye"] ∧
    (onTranscriptionCompletedEvent
      { connectedIdle "abc" with
          expectingAssistantResponse := true,
          lastUserTranscriptSent := "hi",
          recordDisabled := true } "bye").1.lastUserTranscriptSent = "bye" := by
  refine ⟨by decide, ?_, ?_⟩ <;> decide

/-- C3 amended. A transcript-completion signal arriving while the
coordinator is awaiting an assistant response is discarded only when its
trimmed text is empty or equal to the last-sent transcript: in that case no
user message is sent for storage and the turn flags (awaiting, last-sent
transcript, recording, record-button state) are unchanged; a nonempty
different text, however, is sent even while awaiting, so at most one user
utterance per turn is guaranteed only up to the last-sent de-duplication. -/
theorem c3_awaiting_discards_empty_or_duplicate (s : ClientState) (t : String)
    (hE : s.expectingAssistantResponse = true)
    (h : jsTrim t = "" ∨ jsTrim t = s.lastUserTranscriptSent) :
    (onTranscriptionCompletedEvent s t).2 = [] ∧
    (onTranscriptionCompletedEvent s t).1.expectingAssistantResponse = true ∧
    (onTranscriptionCompletedEvent s t).1.lastUserTranscriptSent = s.lastUserTranscriptSent ∧
    (onTranscriptionCompletedEvent s t).1.isRecording = s.isRecording ∧
    (onTranscriptionCompletedEvent s t).1.recordDisabled = s.recordDisabled := by
  rcases h with h | h <;>
    simp [onTranscriptionCompletedEvent, handleTranscriptionCompleted, h, hE]

/-- Witness for C3 amended: a duplicate completion signal while awaiting is
a no-op apart from buffer clearing. -/
theorem c3_awaiting_discards_empty_or_duplicate_witness :
    ({ connectedIdle "abc" with
        expectingAssistantResponse := true,
        lastUserTranscriptSent := "hi",
        recordDisabled := true } : ClientState).expectingAssistantResponse = true ∧
    jsTrim "hi" = "hi" ∧
    (onTranscriptionCompletedEvent
      { connectedIdle "abc" with
          expectingAssistantResponse := true,
          lastUserTranscriptSent := "hi",
          recordDisabled := true } "hi").2 = [] :=
  ⟨by decide, by decide,
    (c3_awaiting_discards_empty_or_duplicate
      { connectedIdle "abc" with
          expectingAssistantResponse := true,
          lastUserTranscriptSent := "hi",
          recordDisabled := true } "hi" (by decide) (Or.inr (by decide))).1⟩

lemma htc_discard {s : ClientState} {t : String}
    (h : jsTrim t = "" ∨ jsTrim t = s.lastUserTranscriptSent) :
    (handleTranscriptionCompleted s t).2 = [] ∧
    (handleTranscriptionCompleted s t).1.lastUserTranscriptSent =
      s.lastUserTranscriptSent := by
  rcases h with h | h <;>
    by_cases hE : s.expectingAssistantResponse <;>
      simp [handleTranscriptionCompleted, h, hE]

lemma htc_fresh {s : ClientState} {t : String}
    (h1 : jsTrim t ≠ "") (h2 : jsTrim t ≠ s.lastUserTranscriptSent) :
    (handleTranscriptionCompleted s t).1.lastUserTranscriptSent = jsTrim t ∧
    (handleTranscriptionCompleted s t).2.length ≤ 1 := by
  by_cases hc : s.wsConnected && s.currentSessionId.isSome <;>
    simp [handleTranscriptionCompleted, sendMessageToBackend, h1, h2, hc]

/-- C4. Submitting the same finalized transcript text twice in immediate
succession sends at most one user_transcript message to the backend across
the two calls, and a call whose trimmed text equals the de-duplication
register lastUserTranscriptSent sends nothing. -/
theorem c4_duplicate_submission_sends_at_most_once (s : ClientState) (t : String) :
    ((handleTranscriptionCompleted s t).2 ++
      (handleTranscriptionCompleted (handleTranscriptionCompleted s t).1 t).2).length ≤ 1 ∧
    (jsTrim t = s.lastUserTranscriptSent → (handleTranscriptionCompleted s t).2 = []) := by
  constructor
  · by_cases h0 : jsTrim t = ""
    · have ha := htc_discard (s := s) (t := t) (Or.inl h0)
      have hb := htc_discard (s := (handleTranscriptionCompleted s t).1) (t := t) (Or.inl h0)
      simp [ha.1, hb.1]
    · by_cases h1 : jsTrim t = s.lastUserTranscriptSent
      · have ha := htc_discard (s := s) (t := t) (Or.inr h1)
        have hb := htc_discard (s := (handleTranscriptionCompleted s t).1) (t := t)
          (Or.inr (by rw [ha.2, h1]))
        simp [ha.1, hb.1]
      · have ha := htc_fresh (s := s) (t := t) h0 h1
        have hb := htc_discard (s := (handleTranscriptionCompleted s t).1) (t := t)
          (Or.inr ha.1.symm)
        calc ((handleTranscriptionCompleted s t).2 ++
                (handleTranscriptionCompleted (handleTranscriptionCompleted s t).1 t).2).length
            = (handleTranscriptionCompleted s t).2.length := by simp [hb.1]
          _ ≤ 1 := ha.2
  · intro h
    exact (htc_discard (Or.inr h)).1

/-- Witness for C4: in a connected idle state, submitting the same text
twice sends it exactly once in total, and a text equal to the register is
never sent. -/
theorem c4_duplicate_submission_sends_at_most_once_witness :
    (((handleTranscriptionCompleted (connectedIdle "abc") "hi").2 ++
      (handleTranscriptionCompleted
        (handleTranscriptionCompleted (connectedIdle "abc") "hi").1 "hi").2).length ≤ 1) ∧
    jsTrim "hi" = ({ connectedIdle "abc" with
        lastUserTranscriptSent := "hi" } : ClientState).lastUserTranscriptSent ∧
    (handleTranscriptionCompleted
      { connectedIdle "abc" with lastUserTranscriptSent := "hi" } "hi").2 = [] :=
  ⟨(c4_duplicate_submission_sends_at_most_once (connectedIdle "abc") "hi").1,
    by decide,
    (c4_duplicate_submission_sends_at_most_once
      { connectedIdle "abc" with lastUserTranscriptSent := "hi" } "hi").2 (by decide)⟩

/-- C7. A capture-start click while the coordinator is awaiting an assistant
response, or while already recording, or without an active session id,
leaves the whole client state unchanged and does not begin recording,
regardless of whether the microphone would have been available. -/
theorem c7_no_capture_start_while_busy (s : ClientState) (micOk : Bool)
    (h : s.expectingAssistantResponse = true ∨ s.isRecording = true ∨
      s.currentSessionId = none) :
    recordClick s micOk = s := by
  rcases h with h | h | h <;> simp [recordClick, h]

/-- Witness for C7: clicking record while awaiting a response changes
nothing. -/
theorem c7_no_capture_start_while_busy_witness :
    ({ connectedIdle "abc" with
        expectingAssistantResponse := true,
        recordDisabled := true } : ClientState).expectingAssistantResponse = true ∧
    recordClick
      { connectedIdle "abc" with
          expectingAssistantResponse := true, recordDisabled := true } true =
      { connectedIdle "abc" with
          expectingAssistantResponse := true, recordDisabled := true } :=
  ⟨by decide,
    c7_no_capture_start_while_busy
      { connectedIdle "abc" with
          expectingAssistantResponse := true, recordDisabled := true } true
      (Or.inl (by decide))⟩

/-- Counterexample to C8 as stated. With a session active and the
coordinator still awaiting the assistant response (the realtime-direct flow,
where response.done leaves the flag set because an audio source is present),
playback completion does not return the coordinator to Idle:
expectingAssistantResponse stays true and the record control stays
disabled. -/
theorem c8_counterexample :
    (audioPlayerOnEnded
      { connectedIdle "abc" with
          expectingAssistantResponse := true,
          recordDisabled := true,
          audioSrcSet := true }).expectingAssistantResponse = true ∧
    (audioPlayerOnEnded
      { connectedIdle "abc" with
          expectingAssistantResponse := true,
          recordDisabled := true,
          audioSrcSet := true }).recordDisabled = true := by
  refine ⟨?_, ?_⟩ <;> decide

/-- C8 amended. On playback completion or playback error the handlers clear
the audio source and never modify expectingAssistantResponse; the record
control is set to enabled-iff-session-active only when
expectingAssistantResponse is already false (as in the backend-text-to-TTS
flow, which clears the flag before playback), and is left unchanged when the
flag is still set. -/
theorem c8_playback_end_behavior (s : ClientState) :
    (audioPlayerOnEnded s).expectingAssistantResponse = s.expectingAssistantResponse ∧
    (audioPlayerOnEnded s).recordDisabled =
      (if s.expectingAssistantResponse then s.recordDisabled
        else s.currentSessionId.isNone) ∧
    (audioPlayerOnEnded s).audioSrcSet = false ∧
    (audioPlayerOnError s).expectingAssistantResponse = s.expectingAssistantResponse ∧
    (audioPlayerOnError s).recordDisabled =
      (if s.expectingAssistantResponse then s.recordDisabled
        else s.currentSessionId.isNone) ∧
    (audioPlayerOnError s).audioSrcSet = false := by
  by_cases hE : s.expectingAssistantResponse <;>
    simp [audioPlayerOnEnded, audioPlayerOnError, hE]

/-- C9. An error event from the realtime transport triggers full session
teardown (cleanupConnections: WebRTC, data channel and backend socket
closed, session id dropped, recording stopped, connect re-enabled) exactly
when the error code is one of session_not_found, auth_error,
connection_error, rate_limit_exceeded; for every other code the session and
connections are kept, the turn state is reset and the record control is
enabled exactly when a session is active. -/
theorem c9_error_event_teardown_policy (s : ClientState) (code : String) :
    ((handleRealtimeErrorEvent s code).2 = true ↔ isFatalErrorCode code = true) ∧
    (isFatalErrorCode code = false →
      (handleRealtimeErrorEvent s code).1.currentSessionId = s.currentSessionId ∧
      (handleRealtimeErrorEvent s code).1.wsConnected = s.wsConnected ∧
      (handleRealtimeErrorEvent s code).1.pcConnected = s.pcConnected ∧
      (handleRealtimeErrorEvent s code).1.dcOpen = s.dcOpen ∧
      (handleRealtimeErrorEvent s code).1.expectingAssistantResponse = false ∧
      (handleRealtimeErrorEvent s code).1.recordDisabled = s.currentSessionId.isNone ∧
      (handleRealtimeErrorEvent s code).1.accumulatedAssistantText = "" ∧
      (handleRealtimeErrorEvent s code).1.assistantAudioBuffer = []) ∧
    (isFatalErrorCode code = true →
      (handleRealtimeErrorEvent s code).1.currentSessionId = none ∧
      (handleRealtimeErrorEvent s code).1.wsConnected = false ∧
      (handleRealtimeErrorEvent s code).1.pcConnected = false ∧
      (handleRealtimeErrorEvent s code).1.dcOpen = false ∧
      (handleRealtimeErrorEvent s code).1.isRecording = false ∧
      (handleRealtimeErrorEvent s code).1.connectDisabled = false) := by
  by_cases hf : isFatalErrorCode code <;>
    by_cases hp : s.transcriptTimeoutPending <;>
      simp [handleRealtimeErrorEvent, cleanupConnections, hf, hp]

/-- Witness for C9: a recoverable server error keeps the session and
re-enables input, while auth_error tears everything down. -/
theorem c9_error_event_teardown_policy_witness :
    isFatalErrorCode "server_error" = false ∧
    (handleRealtimeErrorEvent (connectedIdle "abc") "server_error").1.currentSessionId =
      some "abc" ∧
    isFatalErrorCode "auth_error" = true ∧
    (handleRealtimeErrorEvent (connectedIdle "abc") "auth_error").1.currentSessionId =
      none :=
  ⟨by decide,
    ((c9_error_event_teardown_policy (connectedIdle "abc") "server_error").2.1
      (by decide)).1,
    by decide,
    ((c9_error_event_teardown_policy (connectedIdle "abc") "auth_error").2.2
      (by decide)).1⟩

/-- Little-endian bytes of a 16-bit write (DataView.setUint16 with the
little-endian flag): the value is truncated to two bytes, least significant
first. -/
def u16le (n : Nat) : List Nat :=
  [n % 256, n / 256 % 256]

/-- Little-endian bytes of a 32-bit write (DataView.setUint32 with the
little-endian flag): the value is truncated to four bytes, least significant
first. -/
def u32le (n : Nat) : List Nat :=
  [n % 256, n / 256 % 256, n / 65536 % 256, n / 16777216 % 256]

/-- Byte view of an ASCII string as written by writeString: one byte per
character, the character code of each. -/
def asciiBytes (s : String) : List Nat :=
  s.data.map Char.toNat

/-- An in-range DataView write of a byte sequence at an offset of a buffer:
the bytes replace the segment of the same length starting at the offset. -/
def writeBytesAt (buf : List Nat) (off : Nat) (bs : List Nat) : List Nat :=
  buf.take off ++ bs ++ buf.drop (off + bs.length)

/-- The copy loop of createWavBlob: each chunk is copied into the pcm buffer
with pcm.set at the running offset, which then advances by the chunk
length. -/
def pcmFill : List (List Nat) → List Nat → Nat → List Nat
  | [], buf, _ => buf
  | c :: cs, buf, o => pcmFill cs (writeBytesAt buf o c) (o + c.length)

/-- Total length of the pcm data: the sum of the chunk lengths, as computed
by the reduce in createWavBlob. -/
def sumLen (chunks : List (List Nat)) : Nat :=
  (chunks.map List.length).sum

/-- Assembling the pcm array of createWavBlob: a zero-filled buffer of the
total length, into which the chunks are copied in input order. -/
def assemblePcm (chunks : List (List Nat)) : List Nat :=
  pcmFill chunks (List.replicate (sumLen chunks) 0) 0

/-- createWavBlob: a zero-filled ArrayBuffer of 44 bytes plus the pcm
length, filled by the exact sequence of writeString, setUint32 and setUint16
calls of the source (sr sample rate, nc channels, bps bytes per sample),
with the assembled pcm copied in at offset 44. The result is the byte
content of the returned blob. -/
def createWavBlob (pcmDataChunks : List (List Nat)) : List Nat :=
  let sr := 24000
  let nc := 1
  let bps := 2
  let pcm := assemblePcm pcmDataChunks
  let b0 := List.replicate (44 + pcm.length) 0
  let b1 := writeBytesAt b0 0 (asciiBytes "RIFF")
  let b2 := writeBytesAt b1 4 (u32le (36 + pcm.length))
  let b3 := writeBytesAt b2 8 (asciiBytes "WAVE")
  let b4 := writeBytesAt b3 12 (asciiBytes "fmt ")
  let b5 := writeBytesAt b4 16 (u32le 16)
  let b6 := writeBytesAt b5 20 (u16le 1)
  let b7 := writeBytesAt b6 22 (u16le nc)
  let b8 := writeBytesAt b7 24 (u32le sr)
  let b9 := writeBytesAt b8 28 (u32le (sr * nc * bps))
  let b10 := writeBytesAt b9 32 (u16le (nc * bps))
  let b11 := writeBytesAt b10 34 (u16le (bps * 8))
  let b12 := writeBytesAt b11 36 (asciiBytes "data")
  let b13 := writeBytesAt b12 40 (u32le pcm.length)
  writeBytesAt b13 44 pcm

/-- The RIFF/WAVE header the specification describes for a given data chunk
length: PCM format 1, one channel, 24000 Hz, 16 bits per sample, byte rate
48000, block align 2, RIFF size field 36 plus the data size, and data-chunk
size equal to the data length. -/
def wavHeaderSpec (dataLen : Nat) : List Nat :=
  asciiBytes "RIFF" ++ u32le (36 + dataLen) ++ asciiBytes "WAVE" ++
  asciiBytes "fmt " ++ u32le 16 ++ u16le 1 ++ u16le 1 ++ u32le 24000 ++
  u32le 48000 ++ u16le 2 ++ u16le 16 ++ asciiBytes "data" ++ u32le dataLen

lemma u32le_length (n : Nat) : (u32le n).length = 4 := rfl

lemma u16le_length (n : Nat) : (u16le n).length = 2 := rfl

lemma writeBytesAt_fill (pre bs : List Nat) (off k : Nat) (h : pre.length = off) :
    writeBytesAt (pre ++ List.replicate (bs.length + k) 0) off bs =
      (pre ++ bs) ++ List.replicate k 0 := by
  have hdrop : List.drop (off + bs.length)
      (pre ++ List.replicate (bs.length + k) (0 : Nat)) = List.replicate k 0 := by
    rw [List.replicate_add, ← List.append_assoc]
    exact List.drop_left' (by simp [h])
  unfold writeBytesAt
  rw [List.take_left' h, hdrop, List.append_assoc]

lemma writeBytesAt_fill2 (pre bs : List Nat) (off k m : Nat)
    (hoff : pre.length = off) (hm : m = bs.length + k) :
    writeBytesAt (pre ++ List.replicate m 0) off bs =
      (pre ++ bs) ++ List.replicate k 0 := by
  subst hm
  exact writeBytesAt_fill pre bs off k hoff

lemma writeBytesAt_fill0 (bs : List Nat) (k m : Nat) (hm : m = bs.length + k) :
    writeBytesAt (List.replicate m 0) 0 bs = bs ++ List.replicate k 0 := by
  have h := writeBytesAt_fill2 [] bs 0 k m rfl hm
  simpa using h

lemma pcmFill_join (chunks : List (List Nat)) (pre : List Nat) :
    pcmFill chunks (pre ++ List.replicate (sumLen chunks) 0) pre.length =
      pre ++ chunks.flatten := by
  induction chunks generalizing pre with
  | nil => simp [pcmFill, sumLen]
  | cons c cs ih =>
    have hsum : sumLen (c :: cs) = c.length + sumLen cs := by simp [sumLen]
    rw [hsum]
    simp only [pcmFill]
    rw [writeBytesAt_fill pre c pre.length (sumLen cs) rfl]
    have h := ih (pre ++ c)
    simpa [List.append_assoc] using h

lemma assemblePcm_eq_join (chunks : List (List Nat)) :
    assemblePcm chunks = chunks.flatten := by
  have h := pcmFill_join chunks []
  simpa [assemblePcm] using h

lemma createWavBlob_build (chunks : List (List Nat)) :
    createWavBlob chunks =
      wavHeaderSpec (assemblePcm chunks).length ++ assemblePcm chunks := by
  simp only [createWavBlob]
  set pcm := assemblePcm chunks with hpcm
  set L := pcm.length with hL
  set R := asciiBytes "RIFF" with hR
  set W := asciiBytes "WAVE" with hW
  set F := asciiBytes "fmt " with hF
  set D := asciiBytes "data" with hD
  have lR : R.length = 4 := by rw [hR]; decide
  have lW : W.length = 4 := by rw [hW]; decide
  have lF : F.length = 4 := by rw [hF]; decide
  have lD : D.length = 4 := by rw [hD]; decide
  rw [writeBytesAt_fill0 R (40 + L) (44 + L) (by rw [lR]; omega)]
  rw [writeBytesAt_fill2 R (u32le (36 + L)) 4 (36 + L) (40 + L)
    lR (by rw [u32le_length]; omega)]
  rw [writeBytesAt_fill2 (R ++ u32le (36 + L)) W 8 (32 + L) (36 + L)
    (by simp [lR, u32le_length]) (by rw [lW]; omega)]
  rw [writeBytesAt_fill2 (R ++ u32le (36 + L) ++ W) F 12 (28 + L) (32 + L)
    (by simp [lR, lW, u32le_length]) (by rw [lF]; omega)]
  rw [writeBytesAt_fill2 (R ++ u32le (36 + L) ++ W ++ F) (u32le 16) 16 (24 + L) (28 + L)
    (by simp [lR, lW, lF, u32le_length]) (by rw [u32le_length]; omega)]
  rw [writeBytesAt_fill2 (R ++ u32le (36 + L) ++ W ++ F ++ u32le 16)
    (u16le 1) 20 (22 + L) (24 + L)
    (by simp [lR, lW, lF, u32le_length]) (by rw [u16le_length]; omega)]
  rw [writeBytesAt_fill2 (R ++ u32le (36 + L) ++ W ++ F ++ u32le 16 ++ u16le 1)
    (u16le 1) 22 (20 + L) (22 + L)
    (by simp [lR, lW, lF, u32le_length, u16le_length]) (by rw [u16le_length]; omega)]
  rw [writeBytesAt_fill2
    (R ++ u32le (36 + L) ++ W ++ F ++ u32le 16 ++ u16le 1 ++ u16le 1)
    (u32le 24000) 24 (16 + L) (20 + L)
    (by simp [lR, lW, lF, u32le_length, u16le_length]) (by rw [u32le_length]; omega)]
  rw [writeBytesAt_fill2
    (R ++ u32le (36 + L) ++ W ++ F ++ u32le 16 ++ u16le 1 ++ u16le 1 ++ u32le 24000)
    (u32le (24000 * 1 * 2)) 28 (12 + L) (16 + L)
    (by simp [lR, lW, lF, u32le_length, u16le_length]) (by rw [u32le_length]; omega)]
  rw [writeBytesAt_fill2
    (R ++ u32le (36 + L) ++ W ++ F ++ u32le 16 ++ u16le 1 ++ u16le 1 ++ u32le 24000 ++
      u32le (24000 * 1 * 2))
    (u16le (1 * 2)) 32 (10 + L) (12 + L)
    (by simp [lR, lW, lF, u32le_length, u16le_length]) (by rw [u16le_length]; omega)]
  rw [writeBytesAt_fill2
    (R ++ u32le (36 + L) ++ W ++ F ++ u32le 16 ++ u16le 1 ++ u16le 1 ++ u32le 24000 ++
      u32le (24000 * 1 * 2) ++ u16le (1 * 2))
    (u16le (2 * 8)) 34 (8 + L) (10 + L)
    (by simp [lR, lW, lF, u32le_length, u16le_length]) (by rw [u16le_length]; omega)]
  rw [writeBytesAt_fill2
    (R ++ u32le (36 + L) ++ W ++ F ++ u32le 16 ++ u16le 1 ++ u16le 1 ++ u32le 24000 ++
      u32le (24000 * 1 * 2) ++ u16le (1 * 2) ++ u16le (2 * 8))
    D 36 (4 + L) (8 + L)
    (by simp [lR, lW, lF, u32le_length, u16le_length]) (by rw [lD]; omega)]
  rw [writeBytesAt_fill2
    (R ++ u32le (36 + L) ++ W ++ F ++ u32le 16 ++ u16le 1 ++ u16le 1 ++ u32le 24000 ++
      u32le (24000 * 1 * 2) ++ u16le (1 * 2) ++ u16le (2 * 8) ++ D)
    (u32le L) 40 L (4 + L)
    (by simp [lR, lW, lF, lD, u32le_length, u16le_length]) (by rw [u32le_length])]
  rw [writeBytesAt_fill2
    (R ++ u32le (36 + L) ++ W ++ F ++ u32le 16 ++ u16le 1 ++ u16le 1 ++ u32le 24000 ++
      u32le (24000 * 1 * 2) ++ u16le (1 * 2) ++ u16le (2 * 8) ++ D ++ u32le L)
    pcm 44 0 L
    (by simp [lR, lW, lF, lD, u32le_length, u16le_length]) (by rw [← hL]; omega)]
  simp [wavHeaderSpec, hR, hW, hF, hD, List.append_assoc]

lemma asciiBytes_RIFF_length : (asciiBytes "RIFF").length = 4 := by decide

lemma asciiBytes_WAVE_length : (asciiBytes "WAVE").length = 4 := by decide

lemma asciiBytes_fmt_length : (asciiBytes "fmt ").length = 4 := by decide

lemma asciiBytes_data_length : (asciiBytes "data").length = 4 := by decide

lemma wavHeaderSpec_length (n : Nat) : (wavHeaderSpec n).length = 44 := by
  simp [wavHeaderSpec, u32le_length, u16le_length, asciiBytes_RIFF_length,
    asciiBytes_WAVE_length, asciiBytes_fmt_length, asciiBytes_data_length]

/-- C10. For every list of pcm byte chunks, createWavBlob produces exactly
44 header bytes followed by the chunks concatenated in input order: the
header is the RIFF/WAVE header declaring PCM format 1, one channel, 24000
Hz, 16 bits per sample, byte rate 48000, block align 2, RIFF size field 36
plus the data size, and data-chunk size equal to the sum of the chunk
lengths; the total blob size is 44 plus that sum. -/
theorem c10_createWavBlob_layout (chunks : List (List Nat)) :
    createWavBlob chunks = wavHeaderSpec (sumLen chunks) ++ chunks.flatten ∧
    (createWavBlob chunks).length = 44 + sumLen chunks := by
  have hb := createWavBlob_build chunks
  have hj := assemblePcm_eq_join chunks
  have hlen : chunks.flatten.length = sumLen chunks := by simp [sumLen]
  constructor
  · rw [hb, hj, hlen]
  · rw [hb, hj]
    simp [wavHeaderSpec_length, hlen]

/-- Witness for C6: after one successful start_session, the started id is
listed. -/
theorem c6_list_sessions_exactly_started_witness :
    "aa" ∈ listSessionsHandler (applyCalls [] [ToolCall.startSession "aa"]) :=
  (c6_list_sessions_exactly_started [ToolCall.startSession "aa"] "aa").mpr
    ⟨by decide, by decide⟩
